import Mathlib

/-!
Verification of the run orchestrator (`src/run.ts`) of the dt-mergebot
repository: a shallow embedding of the command-line token coercion, the
selection predicate, the per-PR processing loop with its exception
boundaries, and the board-cleanup (reconciliation) phase, together with
theorems settling the specification claims about them.
-/

set_option autoImplicit false

namespace DTMergebot

/-! ## Basic character/string helpers (model of the regexes in `run.ts`) -/

/-- Model of the character class `\d`. -/
def isDigitChar (c : Char) : Bool :=
  48 ≤ c.toNat && c.toNat ≤ 57

/-- Every character is a decimal digit. -/
def allDigits (cs : List Char) : Bool :=
  cs.all isDigitChar

/-- Model of the regex test `^\d+$` used on a PR token (line 32 of run.ts). -/
def isDigits (s : String) : Bool :=
  allDigits s.data && !s.data.isEmpty

/-- Split a character list at its first dash, as the regex engine does for
`^(\d+)-(\d+)$`: the first group cannot contain a dash. -/
def splitOnDash : List Char → Option (List Char × List Char)
  | [] => none
  | c :: cs =>
    if c = '-' then some ([], cs)
    else
      match splitOnDash cs with
      | some (a, b) => some (c :: a, b)
      | none => none

/-- Decimal value of a digit string, as JS unary `+` computes it on a
matched `\d+` group. -/
def digitsToNat (cs : List Char) : Nat :=
  cs.foldl (fun acc c => acc * 10 + (c.toNat - 48)) 0

/-- Model of the regex test `^(\d+)-(\d+)$` (line 33 of run.ts): exactly one
dash with a nonempty digit string on each side. -/
def isRangeTok (s : String) : Bool :=
  match splitOnDash s.data with
  | some (a, b) => allDigits a && allDigits b && !a.isEmpty && !b.isEmpty
  | none => false

/-- The two bounds of a range token (the `lo` and `hi` of run.ts line 35). -/
def rangeBounds (s : String) : Nat × Nat :=
  match splitOnDash s.data with
  | some (a, b) => (digitsToNat a, digitsToNat b)
  | none => (0, 0)

/-- The error message thrown for an unparsable PR token (run.ts line 34). -/
def badTokenMsg (s : String) : String :=
  "bad PR or PR range argument: \"" ++ s ++ "\""

/-! ## Token coercion and the selection predicate (run.ts lines 30-37, 58-59) -/

/-- The `.coerce` callback of run.ts lines 30-37 applied to one token: a plain
number token becomes an equality predicate, an `N-M` token becomes a range
predicate, anything else throws. -/
def coerceToken (s : String) : Except String (Nat → Bool) :=
  if isDigits s then Except.ok (fun n => n == digitsToNat s.data)
  else if isRangeTok s then
    Except.ok (fun n => Nat.ble (rangeBounds s).1 n && Nat.ble n (rangeBounds s).2)
  else Except.error (badTokenMsg s)

/-- Model of `prs.map(...)` over the token list: the callback runs left to right and the
first thrown error aborts the whole coercion. -/
def coerceTokens : List String → Except String (List (Nat → Bool))
  | [] => Except.ok []
  | t :: ts =>
    match coerceToken t with
    | Except.error e => Except.error e
    | Except.ok p =>
      match coerceTokens ts with
      | Except.error e => Except.error e
      | Except.ok ps => Except.ok (p :: ps)

/-- The selection predicate of run.ts lines 58-59: with no tokens every number
is accepted, otherwise the token predicates are combined with `some` (OR). -/
def shouldRunOn (preds : List (Nat → Bool)) : Nat → Bool :=
  if preds.length == 0 then fun _ => true else fun n => preds.any (fun p => p n)

/-! ## Cards, columns and the archive trim (run.ts lines 133-147) -/

/-- A project-board card as the cleanup phase sees it. -/
structure Card where
  id : String
  updatedAt : String
deriving Repr, DecidableEq

/-- A project-board column: name, fetched cards, and the reported total
(which pagination may make larger than the fetched list). -/
structure ProjectColumn where
  name : String
  cards : List Card
  totalCount : Nat
deriving Repr, DecidableEq

/-- Lexicographic (code-point) order on char lists: the order
`l.updatedAt.localeCompare(r.updatedAt)` induces on ISO timestamps. -/
def lexLe : List Char → List Char → Bool
  | [], _ => true
  | _ :: _, [] => false
  | a :: as, b :: bs =>
    if a.toNat < b.toNat then true
    else if b.toNat < a.toNat then false
    else lexLe as bs

/-- The comparator of run.ts line 139: ascending by `updatedAt`. -/
def cardLe (l r : Card) : Bool :=
  lexLe l.updatedAt.data r.updatedAt.data

/-- Insert a card into a list sorted ascending by `updatedAt`. -/
def insertCard (x : Card) : List Card → List Card
  | [] => [x]
  | y :: ys => if cardLe y x then y :: insertCard x ys else x :: y :: ys

/-- Model of `cards.sort(...)` of run.ts line 139: sort ascending by `updatedAt`. -/
def sortCardsAsc : List Card → List Card
  | [] => []
  | x :: xs => insertCard x (sortCardsAsc xs)

/-- Model of `cards.sort(...).slice(50)` of run.ts line 139: the cards at positions 50
and later of the ascending sort, i.e. all but the 50 oldest. -/
def afterFirst50 (cards : List Card) : List Card :=
  (sortCardsAsc cards).drop 50

/-- The ids the archive trim deletes unconditionally (run.ts line 145). -/
def archiveDeletions (cards : List Card) : List String :=
  (afterFirst50 cards).map Card.id

theorem insertCard_length (x : Card) (l : List Card) :
    (insertCard x l).length = l.length + 1 := by
  induction l with
  | nil => rfl
  | cons y ys ih =>
    simp only [insertCard]
    by_cases h : cardLe y x = true
    · simp [h, ih]
    · simp [h]

theorem sortCardsAsc_length (l : List Card) :
    (sortCardsAsc l).length = l.length := by
  induction l with
  | nil => rfl
  | cons x xs ih => simp [sortCardsAsc, insertCard_length, ih]

theorem afterFirst50_length (cards : List Card) :
    (afterFirst50 cards).length = cards.length - 50 := by
  simp [afterFirst50, sortCardsAsc_length]

/-! ## Non-archive cleanup (run.ts lines 123-131, 149-161) -/

/-- The state of the PR a card id resolves to (`runQueryToGetPRForCardId`). -/
inductive PRState where
  | OPEN
  | CLOSED
  | MERGED
deriving Repr, DecidableEq

/-- The lookup result for a card id: PR number and state. -/
structure PRRef where
  number : Nat
  state : PRState
deriving Repr, DecidableEq

/-- What one `deleteObject` call does: either submit the delete mutation or
only log the card as one that should be deleted. -/
inductive CleanupEffect where
  | deleted (id : String)
  | loggedShouldDelete (id : String) (shoulda : String)
deriving Repr, DecidableEq

/-- JS truthiness of the optional `shoulda` string argument. -/
def strTruthy : Option String → Bool
  | none => false
  | some s => !s.data.isEmpty

/-- Model of `deleteObject` of run.ts lines 123-131: a truthy `shoulda` only logs,
otherwise the delete mutation is submitted. -/
def deleteObject (id : String) (shoulda : Option String) : CleanupEffect :=
  if strTruthy shoulda then CleanupEffect.loggedShouldDelete id (shoulda.getD "")
  else CleanupEffect.deleted id

/-- The loop body of run.ts lines 156-159 for one card id of a non-archive
column: resolve the linked PR and call `deleteObject` with the
`undefined / "???" / "#number"` argument. -/
def cleanupCardEffect (lookup : String → Option PRRef) (id : String) : CleanupEffect :=
  deleteObject id
    (match lookup id with
     | none => some "???"
     | some info =>
       if info.state = PRState.CLOSED then none
       else some ("#" ++ toString info.number))

/-- Processing of one non-archive column (run.ts lines 151-160): the card ids
absent from the ground-truth open-PR card-ID set, each run through
`cleanupCardEffect`. -/
def nonArchiveColumnEffects (cardIDs : List String) (lookup : String → Option PRRef)
    (col : ProjectColumn) : List CleanupEffect :=
  (((col.cards.map Card.id).filter (fun c => !cardIDs.contains c)).map
    (cleanupCardEffect lookup))

/-! ## The per-PR loop (run.ts lines 80-118) -/

/-- The derived state of a PR as run.ts inspects it: a tag (`type`) and an
optional human-readable message. -/
structure BotResult where
  type : String
  message : Option String
deriving Repr, DecidableEq

/-- The accumulating observable state of the per-PR loop: recorded failures
(`failures.push([e, pr])`), PRs logged as nonexistent, error messages logged
at line 108, and the executed (pr, mutations) results, each in
chronological order. -/
structure LoopState where
  failures : List (String × Nat)
  noPRLogs : List Nat
  errorLogs : List String
  executed : List (Nat × List String)
deriving Repr, DecidableEq

/-- The loop state before any PR is processed. -/
def LoopState.empty : LoopState :=
  { failures := [], noPRLogs := [], errorLogs := [], executed := [] }

/-- Prepend one step's contribution to the result of the remaining loop. -/
def stepCont (r : LoopState × Option String) (f : LoopState → LoopState) :
    LoopState × Option String :=
  (f r.1, r.2)

/-- The error message logged at run.ts line 108 for an error-typed state
(JS prints `undefined` for a missing message). -/
def errorLogOf (st : BotResult) : List String :=
  if st.type == "error" then [st.message.getD "undefined"] else []

/-- The per-PR loop of run.ts lines 85-118, parametrized by the external
collaborators: `pi` is `getPRInfo` (the optional `repository.pullRequest`
as an opaque token), `d` is `deriveStateForPR` (the only stage inside the
`try`), `cp` is `computeActions` and `ex` is `executePrActions` (both outside
any `try`: a thrown error escapes the loop). Returns the accumulated loop
state and, when an uncaught exception escaped, its error. -/
def runLoopFrom (pi : Nat → Option String) (d : String → Except String BotResult)
    (cp : BotResult → Except String (List String))
    (ex : List String → String → Bool → Except String (List String))
    (dry : Bool) (sel : Nat → Bool) : List Nat → LoopState × Option String
  | [] => (LoopState.empty, none)
  | pr :: rest =>
    if sel pr then
      match pi pr with
      | none =>
        stepCont (runLoopFrom pi d cp ex dry sel rest)
          (fun s => { s with noPRLogs := pr :: s.noPRLogs })
      | some info =>
        match d info with
        | Except.error e =>
          stepCont (runLoopFrom pi d cp ex dry sel rest)
            (fun s => { s with failures := (e, pr) :: s.failures })
        | Except.ok st =>
          match cp st with
          | Except.error e => ({ LoopState.empty with errorLogs := errorLogOf st }, some e)
          | Except.ok actions =>
            match ex actions info dry with
            | Except.error e => ({ LoopState.empty with errorLogs := errorLogOf st }, some e)
            | Except.ok muts =>
              stepCont (runLoopFrom pi d cp ex dry sel rest)
                (fun s =>
                  { s with
                    errorLogs := errorLogOf st ++ s.errorLogs
                    executed := (pr, muts) :: s.executed })
    else runLoopFrom pi d cp ex dry sel rest

/-! ## The end of `start` and the process exit contract (run.ts 119-177) -/

/-- Whether the `start` promise resolves (process exit code 0) or rejects with
a carried cause (top-level catch sets exit code 1). -/
inductive Outcome where
  | resolved
  | rejected (cause : String)
deriving Repr, DecidableEq

/-- The observable result of one `start()` run. -/
structure StartResult where
  failures : List (String × Nat)
  noPRLogs : List Nat
  errorLogs : List String
  executed : List (Nat × List String)
  cleanupRan : Bool
  archiveDeleted : List String
  archiveWarned : Bool
  otherEffects : List CleanupEffect
  reported : List (Nat × String)
  outcome : Outcome
deriving Repr, DecidableEq

/-- The error thrown when the archive column is missing (run.ts line 136). -/
def configErrorMsg (columns : List ProjectColumn) : String :=
  "Could not find the Recently Merged column in " ++
    String.intercalate "," (columns.map ProjectColumn.name)

/-- Everything `start` does after the per-PR loop (run.ts lines 119-171):
the early return on dry-run or disabled cleanup, the archive-column trim with
its pagination warning, the non-archive column cleanup, and the final
report-and-rethrow of the first recorded failure. -/
def finish (columns : List ProjectColumn) (cardIDs : List String)
    (lookup : String → Option PRRef) (dry cflag : Bool)
    (r : LoopState × Option String) : StartResult :=
  match r with
  | (s, some e) =>
    { failures := s.failures, noPRLogs := s.noPRLogs, errorLogs := s.errorLogs,
      executed := s.executed, cleanupRan := false, archiveDeleted := [],
      archiveWarned := false, otherEffects := [], reported := [],
      outcome := Outcome.rejected e }
  | (s, none) =>
    if dry || !cflag then
      { failures := s.failures, noPRLogs := s.noPRLogs, errorLogs := s.errorLogs,
        executed := s.executed, cleanupRan := false, archiveDeleted := [],
        archiveWarned := false, otherEffects := [], reported := [],
        outcome := Outcome.resolved }
    else
      match columns.find? (fun c => c.name == "Recently Merged") with
      | none =>
        { failures := s.failures, noPRLogs := s.noPRLogs, errorLogs := s.errorLogs,
          executed := s.executed, cleanupRan := true, archiveDeleted := [],
          archiveWarned := false, otherEffects := [], reported := [],
          outcome := Outcome.rejected (configErrorMsg columns) }
      | some col =>
        let del := archiveDeletions col.cards
        let warned := decide (0 < (afterFirst50 col.cards).length) &&
          decide (col.cards.length < col.totalCount)
        let others := ((columns.filter (fun c => !(c.name == "Recently Merged"))).map
          (nonArchiveColumnEffects cardIDs lookup)).flatten
        match s.failures with
        | [] =>
          { failures := [], noPRLogs := s.noPRLogs, errorLogs := s.errorLogs,
            executed := s.executed, cleanupRan := true, archiveDeleted := del,
            archiveWarned := warned, otherEffects := others, reported := [],
            outcome := Outcome.resolved }
        | (e, p) :: restf =>
          { failures := (e, p) :: restf, noPRLogs := s.noPRLogs, errorLogs := s.errorLogs,
            executed := s.executed, cleanupRan := true, archiveDeleted := del,
            archiveWarned := warned, otherEffects := others,
            reported := ((e, p) :: restf).map (fun q => (q.2, q.1)),
            outcome := Outcome.rejected e }

/-- The external collaborators and inputs of one run. -/
structure Env where
  openPRs : List Nat
  cardIDs : List String
  prInfo : Nat → Option String
  derive : String → Except String BotResult
  compute : BotResult → Except String (List String)
  execute : List String → String → Bool → Except String (List String)
  columns : List ProjectColumn
  lookup : String → Option PRRef

/-- The whole `start` function of run.ts lines 80-172. -/
def start (env : Env) (dry cflag : Bool) (sel : Nat → Bool) : StartResult :=
  finish env.columns env.cardIDs env.lookup dry cflag
    (runLoopFrom env.prInfo env.derive env.compute env.execute dry sel env.openPRs)

/-- Outcome of the whole process: token coercion happens while the module's
top level builds `args`, before `start` ever runs, so a bad token aborts
before any fetch. -/
inductive ProgramOutcome where
  | argError (msg : String)
  | ran (r : StartResult)

/-- The program: coerce the tokens, then run `start` with the selection
predicate built from them. -/
def program (env : Env) (dry cflag : Bool) (tokens : List String) : ProgramOutcome :=
  match coerceTokens tokens with
  | Except.error e => ProgramOutcome.argError e
  | Except.ok preds => ProgramOutcome.ran (start env dry cflag (shouldRunOn preds))

/-- The process exit code: 0 when the `start` promise resolves, 1 when it
rejects or argument coercion throws (run.ts lines 174-177). -/
def exitCode : ProgramOutcome → Nat
  | ProgramOutcome.argError _ => 1
  | ProgramOutcome.ran r =>
    match r.outcome with
    | Outcome.resolved => 0
    | Outcome.rejected _ => 1

/-! ## Concrete inputs used by the claim theorems -/

/-- Two-digit zero-padded decimal rendering, so that the demo timestamps sort
lexicographically in numeric order. -/
def pad2 (i : Nat) : String := if i < 10 then "0" ++ toString i else toString i

/-- The `i`-th demo card: id `c<i>`, updated at time `t<i>`. -/
def demoCard (i : Nat) : Card := { id := "c" ++ pad2 i, updatedAt := "t" ++ pad2 i }

/-- An archive column content of 73 cards with strictly increasing
`updatedAt`: `demoCard 0` is the oldest, `demoCard 72` the newest. -/
def demoCards73 : List Card := (List.range 73).map demoCard

/-- The ids of the 23 most recently updated of the 73 demo cards. -/
def newestIds23 : List String := ((List.range 73).drop 50).map (fun i => (demoCard i).id)

/-- The ids of the 23 oldest of the 73 demo cards. -/
def oldestIds23 : List String := ((List.range 73).take 23).map (fun i => (demoCard i).id)

/-- Run in which PR 2's mutation submission throws: PRs 1, 2, 3 all derive and
plan fine, but `executePrActions` throws `boom` for PR 2. -/
def envC3 : Env :=
  { openPRs := [1, 2, 3], cardIDs := []
    prInfo := fun pr => some (toString pr)
    derive := fun _ => Except.ok { type := "ok", message := none }
    compute := fun _ => Except.ok ["act"]
    execute := fun _ info _ => if info == "2" then Except.error "boom" else Except.ok [info]
    columns := [{ name := "Recently Merged", cards := [], totalCount := 0 }]
    lookup := fun _ => none }

/-- Run in which the single PR 101 derives to the error-typed `BotResult`
with message `CI failed` (the planner emits no actions for it). -/
def envC4 : Env :=
  { openPRs := [101], cardIDs := []
    prInfo := fun _ => some "info101"
    derive := fun _ => Except.ok { type := "error", message := some "CI failed" }
    compute := fun _ => Except.ok []
    execute := fun _ _ _ => Except.ok []
    columns := [{ name := "Recently Merged", cards := [], totalCount := 0 }]
    lookup := fun _ => none }

/-- Run with no open PRs and no board columns at all (in particular no
`Recently Merged` column). -/
def envC5 : Env :=
  { openPRs := [], cardIDs := []
    prInfo := fun _ => none
    derive := fun _ => Except.error "x"
    compute := fun _ => Except.ok []
    execute := fun _ _ _ => Except.ok []
    columns := [], lookup := fun _ => none }

/-- An archive column whose reported total (5) exceeds the single fetched
card. -/
def colC7 : ProjectColumn :=
  { name := "Recently Merged", cards := [{ id := "c1", updatedAt := "t1" }], totalCount := 5 }

/-- Run whose board consists of the undercounted archive column `colC7`. -/
def envC7 : Env :=
  { openPRs := [], cardIDs := []
    prInfo := fun _ => none
    derive := fun _ => Except.error "x"
    compute := fun _ => Except.ok []
    execute := fun _ _ _ => Except.ok []
    columns := [colC7], lookup := fun _ => none }

/-- Run whose only selected PR has no `pullRequest` object. -/
def envC9 : Env :=
  { openPRs := [4], cardIDs := []
    prInfo := fun _ => none
    derive := fun _ => Except.error "x"
    compute := fun _ => Except.ok []
    execute := fun _ _ _ => Except.ok []
    columns := [{ name := "Recently Merged", cards := [], totalCount := 0 }]
    lookup := fun _ => none }

/-- The predicates the two demo tokens `5` and `10-12` coerce to. -/
def demoPreds : List (Nat → Bool) := (coerceTokens ["5", "10-12"]).toOption.getD []

/-- A lookup map for the derive stage that always throws `E`. -/
def dErr : String → Except String BotResult := fun _ => Except.error "E"

/-- A PR-info oracle that resolves every number to the token `i`. -/
def piSome : Nat → Option String := fun _ => some "i"

/-- A planner that always returns no actions. -/
def cpNil : BotResult → Except String (List String) := fun _ => Except.ok []

/-- An executor that always returns no mutations. -/
def exNil : List String → String → Bool → Except String (List String) :=
  fun _ _ _ => Except.ok []

/-! ## Helper lemmas about the loop and `finish` -/

theorem runLoop_skip_noPR (pi : Nat → Option String) (d : String → Except String BotResult)
    (cp : BotResult → Except String (List String))
    (ex : List String → String → Bool → Except String (List String))
    (dry : Bool) (sel : Nat → Bool) (pr : Nat) (rest : List Nat)
    (hsel : sel pr = true) (hpi : pi pr = none) :
    runLoopFrom pi d cp ex dry sel (pr :: rest) =
      stepCont (runLoopFrom pi d cp ex dry sel rest)
        (fun s => { s with noPRLogs := pr :: s.noPRLogs }) := by
  simp [runLoopFrom, hsel, hpi]

theorem finish_frame (columns : List ProjectColumn) (cardIDs : List String)
    (lookup : String → Option PRRef) (dry cflag : Bool)
    (r : LoopState × Option String) (pr : Nat) :
    (finish columns cardIDs lookup dry cflag
        (stepCont r (fun s => { s with noPRLogs := pr :: s.noPRLogs }))).outcome
      = (finish columns cardIDs lookup dry cflag r).outcome
    ∧ (finish columns cardIDs lookup dry cflag
        (stepCont r (fun s => { s with noPRLogs := pr :: s.noPRLogs }))).failures
      = (finish columns cardIDs lookup dry cflag r).failures
    ∧ (finish columns cardIDs lookup dry cflag
        (stepCont r (fun s => { s with noPRLogs := pr :: s.noPRLogs }))).executed
      = (finish columns cardIDs lookup dry cflag r).executed := by
  obtain ⟨⟨f, np, el, exd⟩, esc⟩ := r
  cases esc with
  | some e => exact ⟨rfl, rfl, rfl⟩
  | none =>
    cases hdc : (dry || !cflag) with
    | true => simp [finish, stepCont, hdc]
    | false =>
      cases hf : columns.find? (fun c => c.name == "Recently Merged") with
      | none => simp [finish, stepCont, hdc, hf]
      | some col =>
        cases f with
        | nil => simp [finish, stepCont, hdc, hf]
        | cons p ps => simp [finish, stepCont, hdc, hf]

theorem coerceToken_bad (t : String) (h1 : isDigits t = false) (h2 : isRangeTok t = false) :
    coerceToken t = Except.error (badTokenMsg t) := by
  simp [coerceToken, h1, h2]

theorem coerceTokens_error_of_bad (tokens : List String) (t : String) (ht : t ∈ tokens)
    (h1 : isDigits t = false) (h2 : isRangeTok t = false) :
    ∃ bad, bad ∈ tokens ∧ coerceTokens tokens = Except.error (badTokenMsg bad) := by
  induction tokens with
  | nil => cases ht
  | cons a as ih =>
    cases ha : coerceToken a with
    | error e =>
      refine ⟨a, List.mem_cons_self a as, ?_⟩
      have he : e = badTokenMsg a := by
        by_cases hda : isDigits a = true
        · simp [coerceToken, hda] at ha
        · by_cases hra : isRangeTok a = true
          · simp [coerceToken, hda, hra] at ha
          · rw [coerceToken_bad a (by simpa using hda) (by simpa using hra)] at ha
            injection ha with h
            exact h.symm
      simp [coerceTokens, ha, he]
    | ok p =>
      rcases List.mem_cons.mp ht with hta | htas
      · subst hta
        rw [coerceToken_bad t h1 h2] at ha
        cases ha
      · obtain ⟨bad, hbad, hres⟩ := ih htas
        exact ⟨bad, List.mem_cons_of_mem a hbad, by simp [coerceTokens, ha, hres]⟩

theorem strTruthy_qqq : strTruthy (some "???") = true := rfl

theorem strTruthy_hash (x : String) : strTruthy (some ("#" ++ x)) = true := rfl

theorem cleanupCardEffect_eq_deleted (lookup : String → Option PRRef) (i id : String) :
    cleanupCardEffect lookup i = CleanupEffect.deleted id ↔
      (i = id ∧ ∃ info, lookup i = some info ∧ info.state = PRState.CLOSED) := by
  cases hl : lookup i with
  | none =>
    simp [cleanupCardEffect, hl, deleteObject, strTruthy_qqq]
  | some info =>
    by_cases hs : info.state = PRState.CLOSED
    · simp [cleanupCardEffect, hl, hs, deleteObject, strTruthy]
    · simp [cleanupCardEffect, hl, hs, deleteObject, strTruthy_hash]

/-! ## The claims -/

/-- Claim C1: the spec says the archive trim deletes the 23 oldest of 73 cards
and retains the 50 newest; the code (`cards.sort(asc).slice(50)`) does the
opposite, deleting the 23 most recently updated cards and retaining the 50
oldest — contradicting the adjacent log line `Cutting ... to the last 50`.
This theorem evaluates the embedded trim on 73 cards with strictly
increasing `updatedAt`. -/
theorem c1_archive_trim_deletes_newest_keeps_oldest :
    archiveDeletions demoCards73 = newestIds23
    ∧ archiveDeletions demoCards73 ≠ oldestIds23
    ∧ demoCards73.length = 73
    ∧ newestIds23.length = 23
    ∧ oldestIds23.length = 23 := by
  refine ⟨by decide, by decide, by decide, by decide, by decide⟩

/-- Claim C2: in a non-archive column, a delete mutation is submitted for a
card id exactly when the id belongs to the column, is absent from the
ground-truth open-PR card-ID set, and the lookup resolves it to a PR in state
CLOSED; an unresolved lookup is only logged as `should delete` with `???`, and
a resolved but non-closed PR is only logged with `#number`. -/
theorem c2_nonarchive_delete_only_confirmed_closed :
    (∀ (cardIDs : List String) (lookup : String → Option PRRef) (col : ProjectColumn)
        (id : String),
      CleanupEffect.deleted id ∈ nonArchiveColumnEffects cardIDs lookup col ↔
        (id ∈ col.cards.map Card.id ∧ cardIDs.contains id = false ∧
          ∃ info, lookup id = some info ∧ info.state = PRState.CLOSED))
    ∧ (∀ (lookup : String → Option PRRef) (id : String), lookup id = none →
        cleanupCardEffect lookup id = CleanupEffect.loggedShouldDelete id "???")
    ∧ (∀ (lookup : String → Option PRRef) (id : String) (info : PRRef),
        lookup id = some info → info.state ≠ PRState.CLOSED →
        cleanupCardEffect lookup id =
          CleanupEffect.loggedShouldDelete id ("#" ++ toString info.number)) := by
  refine ⟨?_, ?_, ?_⟩
  · intro cardIDs lookup col id
    constructor
    · intro hmem
      rw [nonArchiveColumnEffects] at hmem
      obtain ⟨i, hi, hEff⟩ := List.mem_map.mp hmem
      obtain ⟨hiMem, hiFil⟩ := List.mem_filter.mp hi
      obtain ⟨rfl, info, hlk, hcl⟩ := (cleanupCardEffect_eq_deleted lookup i id).mp hEff
      exact ⟨hiMem, by simpa using hiFil, info, hlk, hcl⟩
    · rintro ⟨hmem, hcont, info, hlk, hcl⟩
      rw [nonArchiveColumnEffects]
      refine List.mem_map.mpr ⟨id, List.mem_filter.mpr ⟨hmem, by simpa using hcont⟩, ?_⟩
      exact (cleanupCardEffect_eq_deleted lookup id id).mpr ⟨rfl, info, hlk, hcl⟩
  · intro lookup id hlk
    simp [cleanupCardEffect, hlk, deleteObject, strTruthy_qqq]
  · intro lookup id info hlk hcl
    simp [cleanupCardEffect, hlk, hcl, deleteObject, strTruthy_hash]

/-- Witness for C2: a card whose lookup fails is logged as `should delete`
with `???`. -/
theorem c2_nonarchive_witness :
    cleanupCardEffect (fun _ => none) "x" = CleanupEffect.loggedShouldDelete "x" "???" :=
  c2_nonarchive_delete_only_confirmed_closed.2.1 (fun _ => none) "x" rfl

/-- Claim C6: the selection predicate built from `5` and `10-12` accepts
exactly 5, 10, 11, 12; built from no tokens it accepts everything; in general
a nonempty token list combines by union (OR). -/
theorem c6_selection_union_semantics :
    (∀ preds, coerceTokens ["5", "10-12"] = Except.ok preds →
      ∀ n, (shouldRunOn preds n = true ↔ (n = 5 ∨ (10 ≤ n ∧ n ≤ 12))))
    ∧ (∀ n, shouldRunOn [] n = true)
    ∧ (∀ (preds : List (Nat → Bool)) (n : Nat), preds ≠ [] →
        (shouldRunOn preds n = true ↔ ∃ p ∈ preds, p n = true)) := by
  refine ⟨?_, ?_, ?_⟩
  · intro preds h n
    have hp : preds = demoPreds := by
      have hev : coerceTokens ["5", "10-12"] = Except.ok demoPreds := rfl
      rw [hev] at h
      injection h with h'
      exact h'.symm
    subst hp
    have hd : demoPreds = [fun n => n == 5, fun n => Nat.ble 10 n && Nat.ble n 12] := rfl
    rw [hd]
    simp [shouldRunOn, Nat.ble_eq]
  · intro n
    rfl
  · intro preds n hne
    cases preds with
    | nil => exact absurd rfl hne
    | cons p ps => simp [shouldRunOn, List.any_eq_true]

/-- Witness for C6: the demo predicate accepts 11 (inside the `10-12`
range). -/
theorem c6_selection_union_semantics_witness :
    shouldRunOn demoPreds 11 = true :=
  (c6_selection_union_semantics.1 demoPreds rfl 11).mpr (Or.inr (by omega))

/-- Claim C10: a PR token that is neither a decimal number nor a decimal
`N-M` range makes argument coercion throw `bad PR or PR range argument`, so
the process aborts with exit code 1 before `start` runs (no fetch and no
mutation happens). -/
theorem c10_bad_token_aborts_run (env : Env) (dry cflag : Bool)
    (tokens : List String) (t : String) (ht : t ∈ tokens)
    (h1 : isDigits t = false) (h2 : isRangeTok t = false) :
    ∃ bad, bad ∈ tokens ∧
      program env dry cflag tokens = ProgramOutcome.argError (badTokenMsg bad)
      ∧ exitCode (program env dry cflag tokens) = 1 := by
  obtain ⟨bad, hbad, hres⟩ := coerceTokens_error_of_bad tokens t ht h1 h2
  exact ⟨bad, hbad, by simp [program, hres], by simp [program, hres, exitCode]⟩

/-- Witness for C10: the token `x` aborts the run. -/
theorem c10_bad_token_aborts_run_witness :
    ∃ bad, bad ∈ ["x"] ∧
      program envC5 false true ["x"] = ProgramOutcome.argError (badTokenMsg bad)
      ∧ exitCode (program envC5 false true ["x"]) = 1 :=
  c10_bad_token_aborts_run envC5 false true ["x"] "x" (List.mem_singleton.mpr rfl) rfl rfl

/-- Claim C3 counterexample: in `envC3` the PR 2 mutation submission throws;
the run rejects with that error, nothing is recorded in the per-PR failure
list, and PR 3 is never processed — refuting the claim that plan/execute
exceptions are caught at the per-PR boundary. -/
theorem c3_execute_throw_aborts_whole_run :
    (start envC3 false true (fun _ => true)).outcome = Outcome.rejected "boom"
    ∧ (start envC3 false true (fun _ => true)).failures = []
    ∧ (start envC3 false true (fun _ => true)).executed = [(1, ["1"])] := by
  refine ⟨by decide, by decide, by decide⟩

/-- Claim C3 (amended): only the derive stage is guarded per-PR — a derive
exception is recorded as `(error, prNumber)` and the loop continues; an
exception from the plan or execute stage escapes immediately (no failure
recorded, remaining PRs unprocessed) and makes the whole run reject with that
error. -/
theorem c3_amended_only_derive_caught :
    (∀ (pi : Nat → Option String) (d : String → Except String BotResult)
        (cp : BotResult → Except String (List String))
        (ex : List String → String → Bool → Except String (List String))
        (dry : Bool) (sel : Nat → Bool) (pr : Nat) (rest : List Nat)
        (info : String) (e : String),
      sel pr = true → pi pr = some info → d info = Except.error e →
      runLoopFrom pi d cp ex dry sel (pr :: rest) =
        stepCont (runLoopFrom pi d cp ex dry sel rest)
          (fun s => { s with failures := (e, pr) :: s.failures }))
    ∧ (∀ (pi : Nat → Option String) (d : String → Except String BotResult)
        (cp : BotResult → Except String (List String))
        (ex : List String → String → Bool → Except String (List String))
        (dry : Bool) (sel : Nat → Bool) (pr : Nat) (rest : List Nat)
        (info : String) (st : BotResult) (e : String),
      sel pr = true → pi pr = some info → d info = Except.ok st →
      cp st = Except.error e →
      runLoopFrom pi d cp ex dry sel (pr :: rest) =
        ({ LoopState.empty with errorLogs := errorLogOf st }, some e))
    ∧ (∀ (pi : Nat → Option String) (d : String → Except String BotResult)
        (cp : BotResult → Except String (List String))
        (ex : List String → String → Bool → Except String (List String))
        (dry : Bool) (sel : Nat → Bool) (pr : Nat) (rest : List Nat)
        (info : String) (st : BotResult) (actions : List String) (e : String),
      sel pr = true → pi pr = some info → d info = Except.ok st →
      cp st = Except.ok actions → ex actions info dry = Except.error e →
      runLoopFrom pi d cp ex dry sel (pr :: rest) =
        ({ LoopState.empty with errorLogs := errorLogOf st }, some e))
    ∧ (∀ (env : Env) (dry cflag : Bool) (sel : Nat → Bool) (s : LoopState) (e : String),
      runLoopFrom env.prInfo env.derive env.compute env.execute dry sel env.openPRs
          = (s, some e) →
      (start env dry cflag sel).outcome = Outcome.rejected e) := by
  refine ⟨?_, ?_, ?_, ?_⟩
  · intro pi d cp ex dry sel pr rest info e hsel hpi hd
    simp [runLoopFrom, hsel, hpi, hd]
  · intro pi d cp ex dry sel pr rest info st e hsel hpi hd hcp
    simp [runLoopFrom, hsel, hpi, hd, hcp]
  · intro pi d cp ex dry sel pr rest info st actions e hsel hpi hd hcp hex
    simp [runLoopFrom, hsel, hpi, hd, hcp, hex]
  · intro env dry cflag sel s e h
    simp [start, h, finish]

/-- Witness for the amended C3: a derive failure for PR 7 is recorded and the
loop terminates normally. -/
theorem c3_amended_only_derive_caught_witness :
    runLoopFrom piSome dErr cpNil exNil false (fun _ => true) [7] =
      ({ LoopState.empty with failures := [("E", 7)] }, none) := by
  have h := c3_amended_only_derive_caught.1 piSome dErr cpNil exNil false
    (fun _ => true) 7 [] "i" "E" rfl rfl rfl
  exact h.trans rfl

/-- Claim C4 counterexample: in `envC4` PR 101 derives to the error-typed
`BotResult` with message `CI failed`; its message is logged, but the failure
list stays empty and the run resolves successfully — refuting the claim that
an error-variant `BotResult` is recorded as a per-PR failure reflected in the
final status. -/
theorem c4_error_state_not_recorded :
    (start envC4 false true (fun _ => true)).failures = []
    ∧ (start envC4 false true (fun _ => true)).outcome = Outcome.resolved
    ∧ (start envC4 false true (fun _ => true)).errorLogs = ["CI failed"]
    ∧ (start envC4 false true (fun _ => true)).executed = [(101, [])] := by
  refine ⟨by decide, by decide, by decide, by decide⟩

/-- Claim C4 (amended): a PR whose derived `BotResult` is the error variant
has its message logged, but it is not recorded as a per-PR failure: planning
and execution still run for it (its mutations are recorded), and processing
continues with the remaining PRs, leaving the failure list untouched. -/
theorem c4_amended_error_state_continues
    (pi : Nat → Option String) (d : String → Except String BotResult)
    (cp : BotResult → Except String (List String))
    (ex : List String → String → Bool → Except String (List String))
    (dry : Bool) (sel : Nat → Bool) (pr : Nat) (rest : List Nat)
    (info : String) (st : BotResult) (actions muts : List String)
    (hsel : sel pr = true) (hpi : pi pr = some info) (hd : d info = Except.ok st)
    (hty : st.type = "error") (hcp : cp st = Except.ok actions)
    (hex : ex actions info dry = Except.ok muts) :
    runLoopFrom pi d cp ex dry sel (pr :: rest) =
      stepCont (runLoopFrom pi d cp ex dry sel rest)
        (fun s =>
          { s with
            errorLogs := st.message.getD "undefined" :: s.errorLogs
            executed := (pr, muts) :: s.executed }) := by
  simp [runLoopFrom, hsel, hpi, hd, hcp, hex, errorLogOf, hty]

/-- Witness for the amended C4: PR 101 with a `CI failed` error state is
logged and executed, and the failure list stays empty. -/
theorem c4_amended_error_state_continues_witness :
    runLoopFrom piSome
        (fun _ => Except.ok { type := "error", message := some "CI failed" })
        cpNil exNil false (fun _ => true) [101] =
      ({ LoopState.empty with errorLogs := ["CI failed"], executed := [(101, [])] }, none) := by
  have h := c4_amended_error_state_continues piSome
    (fun _ => Except.ok { type := "error", message := some "CI failed" })
    cpNil exNil false (fun _ => true) 101 [] "i"
    { type := "error", message := some "CI failed" } [] []
    rfl rfl rfl rfl rfl rfl
  exact h.trans rfl

/-- Claim C9: a selected PR whose fetch yields no `pullRequest` object is
logged and skipped — the loop step only prepends it to the nonexistent-PR
log, and the run's outcome, failure list and executed mutations are exactly
those of the same run without that PR. -/
theorem c9_missing_pr_skipped_harmless :
    (∀ (pi : Nat → Option String) (d : String → Except String BotResult)
        (cp : BotResult → Except String (List String))
        (ex : List String → String → Bool → Except String (List String))
        (dry : Bool) (sel : Nat → Bool) (pr : Nat) (rest : List Nat),
      sel pr = true → pi pr = none →
      runLoopFrom pi d cp ex dry sel (pr :: rest) =
        stepCont (runLoopFrom pi d cp ex dry sel rest)
          (fun s => { s with noPRLogs := pr :: s.noPRLogs }))
    ∧ (∀ (env : Env) (dry cflag : Bool) (sel : Nat → Bool) (pr : Nat) (rest : List Nat),
      env.openPRs = pr :: rest → sel pr = true → env.prInfo pr = none →
      (start env dry cflag sel).outcome
          = (start { env with openPRs := rest } dry cflag sel).outcome
        ∧ (start env dry cflag sel).failures
          = (start { env with openPRs := rest } dry cflag sel).failures
        ∧ (start env dry cflag sel).executed
          = (start { env with openPRs := rest } dry cflag sel).executed) := by
  constructor
  · intro pi d cp ex dry sel pr rest hsel hpi
    exact runLoop_skip_noPR pi d cp ex dry sel pr rest hsel hpi
  · intro env dry cflag sel pr rest hopen hsel hpi
    obtain ⟨o, cids, pi, d, cp, ex, cols, lk⟩ := env
    have ho : o = pr :: rest := hopen
    have hp : pi pr = none := hpi
    subst ho
    show (finish cols cids lk dry cflag
            (runLoopFrom pi d cp ex dry sel (pr :: rest))).outcome
          = (finish cols cids lk dry cflag
            (runLoopFrom pi d cp ex dry sel rest)).outcome
        ∧ (finish cols cids lk dry cflag
            (runLoopFrom pi d cp ex dry sel (pr :: rest))).failures
          = (finish cols cids lk dry cflag
            (runLoopFrom pi d cp ex dry sel rest)).failures
        ∧ (finish cols cids lk dry cflag
            (runLoopFrom pi d cp ex dry sel (pr :: rest))).executed
          = (finish cols cids lk dry cflag
            (runLoopFrom pi d cp ex dry sel rest)).executed
    rw [runLoop_skip_noPR pi d cp ex dry sel pr rest hsel hp]
    exact finish_frame cols cids lk dry cflag
      (runLoopFrom pi d cp ex dry sel rest) pr

/-- Witness for C9: the run over `envC9` (whose only PR 4 has no
`pullRequest` object) has the same outcome, failures and executed list as the
run with no PRs at all. -/
theorem c9_missing_pr_skipped_harmless_witness :
    (start envC9 false true (fun _ => true)).outcome
        = (start { envC9 with openPRs := [] } false true (fun _ => true)).outcome
      ∧ (start envC9 false true (fun _ => true)).failures
        = (start { envC9 with openPRs := [] } false true (fun _ => true)).failures
      ∧ (start envC9 false true (fun _ => true)).executed
        = (start { envC9 with openPRs := [] } false true (fun _ => true)).executed :=
  c9_missing_pr_skipped_harmless.2 envC9 false true (fun _ => true) 4 [] rfl rfl rfl

/-- Claim C5 counterexample: in `envC5` (cleanup enabled, not dry, no
recorded failures, but no `Recently Merged` column) the run still exits
non-zero — refuting the claim that zero recorded failures imply exit
code 0. -/
theorem c5_zero_failures_can_still_exit_nonzero :
    (start envC5 false true (fun _ => true)).failures = []
    ∧ (start envC5 false true (fun _ => true)).outcome ≠ Outcome.resolved := by
  refine ⟨by decide, by decide⟩

/-- Claim C5 (amended): provided no plan/execute exception escaped the loop,
the run resolves (exit 0) when dry-run or disabled cleanup short-circuits the
end of `start`; otherwise, when the archive column is found, it resolves
exactly when no per-PR failure was recorded, and with recorded failures it
prints every `(prNumber, error)` pair and rejects carrying the first recorded
failure. -/
theorem c5_amended_exit_contract (env : Env) (dry cflag : Bool) (sel : Nat → Bool)
    (s : LoopState)
    (h : runLoopFrom env.prInfo env.derive env.compute env.execute dry sel env.openPRs
        = (s, none)) :
    ((dry || !cflag) = true → (start env dry cflag sel).outcome = Outcome.resolved)
    ∧ ((dry || !cflag) = false →
        ∀ col, env.columns.find? (fun c => c.name == "Recently Merged") = some col →
        (s.failures = [] → (start env dry cflag sel).outcome = Outcome.resolved)
        ∧ (∀ (e : String) (pr : Nat) (restf : List (String × Nat)),
            s.failures = (e, pr) :: restf →
            (start env dry cflag sel).outcome = Outcome.rejected e
            ∧ (start env dry cflag sel).reported
                = ((e, pr) :: restf).map (fun q => (q.2, q.1)))) := by
  constructor
  · intro hdc
    simp [start, h, finish, hdc]
  · intro hdc col hcol
    constructor
    · intro hnil
      simp [start, h, finish, hdc, hcol, hnil]
    · intro e pr restf hcons
      refine ⟨?_, ?_⟩ <;> simp [start, h, finish, hdc, hcol, hcons]

/-- Witness for the amended C5: a dry run resolves. -/
theorem c5_amended_exit_contract_witness :
    (start envC5 true true (fun _ => true)).outcome = Outcome.resolved :=
  (c5_amended_exit_contract envC5 true true (fun _ => true) LoopState.empty rfl).1 rfl

/-- Claim C7 counterexample: in `envC7` the archive column reports 5 total
cards while only 1 was fetched, yet — because no trim happens at 50 or fewer
fetched cards — no warning is emitted, refuting the claim that every
undercount is surfaced. -/
theorem c7_undercount_unwarned_when_no_trim :
    colC7.cards.length < colC7.totalCount
    ∧ (start envC7 false true (fun _ => true)).archiveWarned = false := by
  refine ⟨by decide, by decide⟩

/-- Claim C7 (amended): when cleanup runs and the archive column is found,
the undercount warning is emitted exactly when more than 50 cards were
fetched (so the trim branch is taken) and the reported total exceeds the
fetched count. -/
theorem c7_amended_warning_iff_trim_and_undercount (env : Env) (dry cflag : Bool)
    (sel : Nat → Bool) (s : LoopState) (col : ProjectColumn)
    (h : runLoopFrom env.prInfo env.derive env.compute env.execute dry sel env.openPRs
        = (s, none))
    (hdc : (dry || !cflag) = false)
    (hcol : env.columns.find? (fun c => c.name == "Recently Merged") = some col) :
    ((start env dry cflag sel).archiveWarned = true ↔
      (50 < col.cards.length ∧ col.cards.length < col.totalCount)) := by
  cases hf : s.failures with
  | nil =>
    simp [start, h, finish, hdc, hcol, hf, afterFirst50_length]
  | cons p ps =>
    obtain ⟨pe, pp⟩ := p
    simp [start, h, finish, hdc, hcol, hf, afterFirst50_length]

/-- Witness for the amended C7: for `envC7` (1 fetched card, total 5) the
warning criterion is not met. -/
theorem c7_amended_warning_witness :
    ((start envC7 false true (fun _ => true)).archiveWarned = true ↔
      (50 < colC7.cards.length ∧ colC7.cards.length < colC7.totalCount)) :=
  c7_amended_warning_iff_trim_and_undercount envC7 false true (fun _ => true)
    LoopState.empty colC7 rfl rfl rfl

/-- Claim C8: when cleanup runs and no column named `Recently Merged` exists,
`start` rejects with the configuration error: the whole cleanup phase is
aborted (no archive deletion, no non-archive cleanup effect), and no per-PR
failure is reported — the configuration error is distinct from per-PR
failures. -/
theorem c8_missing_archive_column_fatal (env : Env) (dry cflag : Bool)
    (sel : Nat → Bool) (s : LoopState)
    (h : runLoopFrom env.prInfo env.derive env.compute env.execute dry sel env.openPRs
        = (s, none))
    (hdc : (dry || !cflag) = false)
    (hcol : env.columns.find? (fun c => c.name == "Recently Merged") = none) :
    (start env dry cflag sel).outcome = Outcome.rejected (configErrorMsg env.columns)
    ∧ (start env dry cflag sel).archiveDeleted = []
    ∧ (start env dry cflag sel).otherEffects = []
    ∧ (start env dry cflag sel).reported = [] := by
  refine ⟨?_, ?_, ?_, ?_⟩ <;> simp [start, h, finish, hdc, hcol]

/-- Witness for C8: the column-free `envC5` run rejects with the
configuration error and attempts no deletion. -/
theorem c8_missing_archive_column_fatal_witness :
    (start envC5 false true (fun _ => true)).outcome
        = Outcome.rejected (configErrorMsg envC5.columns)
    ∧ (start envC5 false true (fun _ => true)).archiveDeleted = []
    ∧ (start envC5 false true (fun _ => true)).otherEffects = []
    ∧ (start envC5 false true (fun _ => true)).reported = [] :=
  c8_missing_archive_column_fatal envC5 false true (fun _ => true) LoopState.empty
    rfl rfl rfl

end DTMergebot
